import Mathlib

/-!
Shallow embedding of `src/index.py`, a Telegram post-scheduler bot.

The embedding models the queueing/scheduling core:
* `PostItem` — the tagged post payload built by `handle_new_post`
  (dict with "type" = "photo" or "text").
* the Post Queue — `asyncio.Queue` holding `PostItem`s, modelled as a
  `List PostItem` with head = front of the queue; `put` appends at the
  tail, `get` removes the head.
* `send_post_to_channel` — the dispatcher: publishes via the bot
  collaborator, and on any exception sleeps 5 seconds and re-enqueues the
  item at the tail.  Sleeps are modelled as data: each operation returns
  the number of seconds it slept.
* `scheduler` — one iteration of the infinite loop is `scheduler_step`;
  the `try/except` at the top of the loop body is modelled by an
  `IterEvent` oracle that either runs the body or raises an exception.
* `run_scheduler_endpoint` — the `/run-scheduler` manual trigger.
* `handle_new_post` — queue admission for inbound messages.

The external bot collaborator (`bot.send_photo` / `bot.send_message`) is an
opaque fallible operation, modelled as a `Publisher` record of functions
returning `Except String Unit`.  `datetime.time` values are modelled as
seconds after midnight (`Nat`); `time(h, m)` comparisons at whole-minute
boundaries coincide with comparisons of total seconds.
-/

/-- The post payload dict built by `handle_new_post`:
`{"type": "text", "content": ...}` or
`{"type": "photo", "file_id": ..., "caption": ...}`. -/
inductive PostItem where
  | text (content : String)
  | photo (file_id : String) (caption : String)
deriving DecidableEq, Repr

/-- `START_TIME = time(8, 0)` as an (hour, minute) pair. -/
def START_TIME : Nat × Nat := (8, 0)

/-- `END_TIME = time(22, 0)` as an (hour, minute) pair. -/
def END_TIME : Nat × Nat := (22, 0)

/-- `POSTS_PER_DAY = 10`. -/
def POSTS_PER_DAY : Nat := 10

/-- `t.hour * 3600 + t.minute * 60`, as computed at lines 63-64 of
`index.py`. -/
def totalSeconds (t : Nat × Nat) : Nat := t.1 * 3600 + t.2 * 60

/-- The window gate `START_TIME <= now_time <= END_TIME` (line 70),
with `now` as seconds after midnight. -/
def isWithinWindow (now : Nat) : Bool :=
  decide (totalSeconds START_TIME ≤ now) && decide (now ≤ totalSeconds END_TIME)

/-- `interval = total_seconds_in_day / POSTS_PER_DAY if POSTS_PER_DAY > 0
else 3600` (line 67), with Python float division modelled exactly in `ℚ`.
The start/end/posts-per-day configuration constants are passed as
parameters. -/
def dispatchInterval (startS endS : Nat) (postsPerDay : Nat) : ℚ :=
  if postsPerDay > 0 then ((endS : ℚ) - (startS : ℚ)) / (postsPerDay : ℚ)
  else 3600

/-- The external publish collaborator: `bot.send_photo` and
`bot.send_message`, both fallible. -/
structure Publisher where
  sendPhoto : String → String → Except String Unit
  sendText : String → Except String Unit

/-- The variant dispatch inside `send_post_to_channel` (lines 50-53):
photo posts go to `bot.send_photo`, text posts to `bot.send_message`. -/
def publishPost (pub : Publisher) (post : PostItem) : Except String Unit :=
  match post with
  | .photo fid cap => pub.sendPhoto fid cap
  | .text c => pub.sendText c

/-- `send_post_to_channel` (lines 48-58).  Returns the queue after the
call together with the seconds slept.  The `try/except` catches every
exception from the publish collaborator: on failure it sleeps 5 seconds
and re-enqueues the item at the tail of the queue; the function always
returns normally (no `Except` in the result type — errors never
propagate to the caller). -/
def send_post_to_channel (pub : Publisher) (post : PostItem) (q : List PostItem) :
    List PostItem × Nat :=
  match publishPost pub post with
  | .ok _ => (q, 0)
  | .error _ => (q ++ [post], 5)

/-- `post_queue.put`: append at the tail (FIFO queue, line 29). -/
def enqueue (q : List PostItem) (item : PostItem) : List PostItem := q ++ [item]

/-- Non-blocking view of `post_queue.get` guarded by `post_queue.empty()`:
remove and return the head when non-empty, else report empty. -/
def tryDequeue (q : List PostItem) : Option PostItem × List PostItem :=
  match q with
  | [] => (none, [])
  | p :: rest => (some p, rest)

/-- `n` successive `tryDequeue` calls, collecting the returned options. -/
def drainN : Nat → List PostItem → List (Option PostItem) × List PostItem
  | 0, q => ([], q)
  | n + 1, q =>
    let step := tryDequeue q
    let rest := drainN n step.2
    (step.1 :: rest.1, rest.2)

/-- A sequence of `tryDequeue` calls issued by identified callers
(scheduler loop, manual trigger, ...), executed in some interleaving
order.  Under asyncio's cooperative single-threaded model each
`post_queue.get` is atomic, so a concurrent execution is exactly such a
serialization. -/
def runDequeues : List Nat → List PostItem → List (Nat × Option PostItem) × List PostItem
  | [], q => ([], q)
  | a :: sched, q =>
    let step := tryDequeue q
    let rest := runDequeues sched step.2
    ((a, step.1) :: rest.1, rest.2)

/-- An inbound Telegram message, with the fields `handle_new_post` reads:
`from_user.id`, `photo` (list of size variants; the code takes
`photo[-1].file_id`, so we keep just the file ids), `caption`, `text`. -/
structure Message where
  fromUserId : Int
  photo : List String
  caption : Option String
  text : Option String

/-- The user-facing reply of `handle_new_post`: the unauthorized
rejection (line 34), the enqueue acknowledgment with queue size
(line 44), or the unsupported-content rejection (line 46). -/
inductive Reply where
  | unauthorized
  | added (queueSize : Nat)
  | unsupported
deriving DecidableEq, Repr

/-- `handle_new_post` (lines 31-46): authorization check, then the
photo branch (`if message.photo`, which in Python tests list
non-emptiness; the caption is `message.caption or ""`), then the text
branch (`elif message.text`, false for `None` and for the empty
string), else rejection.  Returns the queue after the call with the
reply sent to the user. -/
def handle_new_post (adminId : Int) (msg : Message) (q : List PostItem) :
    List PostItem × Reply :=
  if msg.fromUserId ≠ adminId then (q, .unauthorized)
  else
    let post_data : Option PostItem :=
      match msg.photo.getLast? with
      | some fid => some (.photo fid (msg.caption.getD ""))
      | none =>
        match msg.text with
        | some t => if t.isEmpty then none else some (.text t)
        | none => none
    match post_data with
    | some pd => (enqueue q pd, .added (q.length + 1))
    | none => (q, .unsupported)

/-- What happens inside one iteration of the scheduler loop's `try`
block: either the body runs (with the publish collaborator's current
behaviour) or some unexpected exception is raised. -/
inductive IterEvent where
  | run (pub : Publisher)
  | raise (e : String)

/-- One iteration of the `while True` loop of `scheduler` (lines 60-81).
Returns the queue after the iteration and the seconds slept in it.  The
body computes the advisory interval (logging only), then: if the window
is open and the queue non-empty, it dequeues the head and calls
`send_post_to_channel` with no further sleep; otherwise it sleeps 30
seconds.  Any exception escaping the body is caught by the loop-level
`except`, which sleeps 60 seconds; the step is a total function, so the
loop never terminates. -/
def scheduler_step (now : Nat) (ev : IterEvent) (q : List PostItem) :
    List PostItem × Nat :=
  match ev with
  | .raise _ => (q, 60)
  | .run pub =>
    let _interval := dispatchInterval (totalSeconds START_TIME) (totalSeconds END_TIME)
      POSTS_PER_DAY
    if isWithinWindow now && !q.isEmpty then
      match q with
      | p :: rest => send_post_to_channel pub p rest
      | [] => (q, 30)
    else (q, 30)

/-- The JSON body returned by `/run-scheduler`. -/
structure EndpointResponse where
  status : String
  queue_size : Option Nat
deriving DecidableEq, Repr

/-- `run_scheduler_endpoint` (lines 113-125), the manual trigger: if the
queue is non-empty, dequeue the head, deliver it, and report
`{"status": "Post sent from queue", "queue_size": qsize()}` where the
size is read after `send_post_to_channel` returns; else report
`{"status": "Queue is empty"}`.  It never consults the time window. -/
def run_scheduler_endpoint (pub : Publisher) (q : List PostItem) :
    List PostItem × EndpointResponse :=
  match q with
  | [] => ([], ⟨"Queue is empty", none⟩)
  | p :: rest =>
    let after := send_post_to_channel pub p rest
    (after.1, ⟨"Post sent from queue", some after.1.length⟩)

/-- A publish collaborator that always succeeds. -/
def pubOk : Publisher := ⟨fun _ _ => .ok (), fun _ => .ok ()⟩

/-- A publish collaborator that always fails. -/
def pubFail : Publisher := ⟨fun _ _ => .error "network", fun _ => .error "network"⟩

/-- Concrete sample item A. -/
def itemA : PostItem := .text "A"

/-- Concrete sample item B. -/
def itemB : PostItem := .text "B"

/-- C1: if the publish collaborator fails with an error of any kind,
`send_post_to_channel` sleeps the fixed 5-second backoff and re-enqueues
the item at the tail of the queue, and the error does not propagate to
the caller (the result type carries no error); in particular for queue
`[A, B]`, dequeuing `A` and failing leaves the queue `[B, A]`. -/
theorem deliver_failure_requeues_tail :
    (∀ (pub : Publisher) (post : PostItem) (q : List PostItem) (e : String),
      publishPost pub post = .error e →
      send_post_to_channel pub post q = (q ++ [post], 5)) ∧
    send_post_to_channel pubFail itemA [itemB] = ([itemB, itemA], 5) := by
  constructor
  · intro pub post q e h
    simp [send_post_to_channel, h]
  · rfl

theorem deliver_failure_requeues_tail_witness :
    publishPost pubFail itemA = Except.error "network" ∧
    send_post_to_channel pubFail itemA [itemB] = ([itemB, itemA], 5) :=
  ⟨rfl, deliver_failure_requeues_tail.1 pubFail itemA [itemB] "network" rfl⟩

/-- C2: one iteration of the scheduler loop dispatches at most one item:
when the window is open and the queue non-empty it dequeues the head and
calls the dispatcher, with no sleep beyond the one the dispatcher itself
imposes; otherwise it sleeps 30 seconds leaving the queue unchanged; and
an exception raised in the body is caught at the loop level, followed by
a 60-second sleep, leaving the queue unchanged — every case returns a
next state, so the loop never terminates. -/
theorem scheduler_step_spec :
    (∀ (pub : Publisher) (now : Nat) (p : PostItem) (rest : List PostItem),
      isWithinWindow now = true →
      scheduler_step now (.run pub) (p :: rest) = send_post_to_channel pub p rest) ∧
    (∀ (pub : Publisher) (now : Nat) (q : List PostItem),
      isWithinWindow now = false →
      scheduler_step now (.run pub) q = (q, 30)) ∧
    (∀ (pub : Publisher) (now : Nat),
      scheduler_step now (.run pub) [] = ([], 30)) ∧
    (∀ (e : String) (now : Nat) (q : List PostItem),
      scheduler_step now (.raise e) q = (q, 60)) := by
  refine ⟨?_, ?_, ?_, ?_⟩
  · intro pub now p rest h
    simp [scheduler_step, h]
  · intro pub now q h
    simp [scheduler_step, h]
  · intro pub now
    simp [scheduler_step]
  · intro e now q
    rfl

theorem scheduler_step_spec_witness :
    scheduler_step 28800 (.run pubOk) [itemA] = ([], 0) ∧
    scheduler_step 0 (.run pubOk) [itemA] = ([itemA], 30) ∧
    scheduler_step 28800 (.run pubOk) [] = ([], 30) ∧
    scheduler_step 28800 (.raise "boom") [itemA] = ([itemA], 60) :=
  ⟨(scheduler_step_spec.1 pubOk 28800 itemA [] (by decide)).trans rfl,
   scheduler_step_spec.2.1 pubOk 0 [itemA] (by decide),
   scheduler_step_spec.2.2.1 pubOk 28800,
   scheduler_step_spec.2.2.2 "boom" 28800 [itemA]⟩

/-- Folding `enqueue` over a list appends it, preserving order. -/
theorem foldl_enqueue (q : List PostItem) (xs : List PostItem) :
    List.foldl enqueue q xs = q ++ xs := by
  induction xs generalizing q with
  | nil => simp
  | cons x xs ih => simp [enqueue, ih, List.append_assoc]

/-- Draining the empty queue only returns empty results. -/
theorem drainN_nil (k : Nat) : drainN k [] = (List.replicate k none, []) := by
  induction k with
  | zero => rfl
  | succ k ih => simp [drainN, tryDequeue, ih, List.replicate_succ]

/-- Draining a queue returns its items in order, then empty results. -/
theorem drainN_enqueued (xs : List PostItem) (k : Nat) :
    drainN (xs.length + k) xs = (xs.map some ++ List.replicate k none, []) := by
  induction xs with
  | nil => simpa using drainN_nil k
  | cons x xs ih =>
    have h : (x :: xs).length + k = (xs.length + k) + 1 := by
      simp [List.length_cons]
      omega
    rw [h]
    simp [drainN, tryDequeue, ih]

/-- C3: after any sequence of `enqueue` calls on the (initially empty)
Post Queue, successive `tryDequeue` calls return the enqueued items in
exactly the order they were enqueued, and every further `tryDequeue`
after all items have been removed returns empty. -/
theorem queue_fifo (xs : List PostItem) (k : Nat) :
    drainN (xs.length + k) (List.foldl enqueue [] xs) =
      (xs.map some ++ List.replicate k none, []) := by
  rw [foldl_enqueue]
  simpa using drainN_enqueued xs k

/-- C4: the window gate returns true iff the start time is at most `now`
and `now` is at most the end time, and both boundary instants
(08:00:00 and 22:00:00) themselves count as within the window. -/
theorem isWithinWindow_spec :
    (∀ now : Nat, isWithinWindow now = true ↔
      totalSeconds START_TIME ≤ now ∧ now ≤ totalSeconds END_TIME) ∧
    isWithinWindow (totalSeconds START_TIME) = true ∧
    isWithinWindow (totalSeconds END_TIME) = true := by
  refine ⟨?_, by decide, by decide⟩
  intro now
  simp [isWithinWindow]

/-- C5: the advisory dispatch interval equals
`(endTime - startTime) / postsPerDay` whenever `postsPerDay > 0`, equals
the fixed 3600-second fallback when `postsPerDay = 0`, and at the
configured values (start 08:00, end 22:00, 10 posts per day) equals
5040 seconds. -/
theorem dispatchInterval_spec :
    (∀ s e ppd : Nat, 0 < ppd →
      dispatchInterval s e ppd = ((e : ℚ) - (s : ℚ)) / (ppd : ℚ)) ∧
    (∀ s e : Nat, dispatchInterval s e 0 = 3600) ∧
    dispatchInterval (totalSeconds START_TIME) (totalSeconds END_TIME)
      POSTS_PER_DAY = 5040 := by
  refine ⟨?_, ?_, ?_⟩
  · intro s e ppd h
    simp [dispatchInterval, h]
  · intro s e
    simp [dispatchInterval]
  · norm_num [dispatchInterval, totalSeconds, START_TIME, END_TIME, POSTS_PER_DAY]

theorem dispatchInterval_spec_witness :
    0 < 10 ∧
    dispatchInterval 28800 79200 10 = ((79200 : ℚ) - (28800 : ℚ)) / (10 : ℚ) :=
  ⟨by decide, dispatchInterval_spec.1 28800 79200 10 (by decide)⟩

/-- C6: the manual trigger, which never consults the active window
(its definition takes no time argument), is a no-op on an empty queue
and reports the empty status leaving the queue untouched; on a
non-empty queue it removes exactly one item (the head), delivers it,
and on successful delivery reports a queue size equal to the size
before the call minus one. -/
theorem manual_trigger_spec :
    (∀ pub : Publisher,
      run_scheduler_endpoint pub [] = ([], ⟨"Queue is empty", none⟩)) ∧
    (∀ (pub : Publisher) (p : PostItem) (rest : List PostItem),
      publishPost pub p = .ok () →
      run_scheduler_endpoint pub (p :: rest) =
        (rest, ⟨"Post sent from queue", some rest.length⟩) ∧
      rest.length = (p :: rest).length - 1) := by
  constructor
  · intro pub
    rfl
  · intro pub p rest h
    refine ⟨?_, by simp⟩
    simp [run_scheduler_endpoint, send_post_to_channel, h]

theorem manual_trigger_spec_witness :
    run_scheduler_endpoint pubOk [itemA, itemB] =
      ([itemB], ⟨"Post sent from queue", some 1⟩) :=
  (manual_trigger_spec.2 pubOk itemA [itemB] rfl).1

/-- C7: an inbound submission whose content is neither a photo (empty
photo list) nor truthy text (no text, or the empty string) is never
enqueued — the queue is unchanged — and the user receives a rejection
reply (the unsupported-content message, or the unauthorized message for
a non-operator sender). -/
theorem unsupported_content_not_queued (adminId : Int) (msg : Message)
    (q : List PostItem) (hphoto : msg.photo = [])
    (htext : msg.text = none ∨ msg.text = some "") :
    (handle_new_post adminId msg q).1 = q ∧
    ((handle_new_post adminId msg q).2 = .unsupported ∨
      (handle_new_post adminId msg q).2 = .unauthorized) := by
  unfold handle_new_post
  rcases htext with h | h <;>
    by_cases ha : msg.fromUserId ≠ adminId <;>
      simp [hphoto, h, ha]
  exact ⟨rfl, Or.inl rfl⟩

theorem unsupported_content_not_queued_witness :
    (handle_new_post 1 ⟨1, [], none, none⟩ [itemA]).1 = [itemA] ∧
    ((handle_new_post 1 ⟨1, [], none, none⟩ [itemA]).2 = .unsupported ∨
      (handle_new_post 1 ⟨1, [], none, none⟩ [itemA]).2 = .unauthorized) :=
  unsupported_content_not_queued 1 ⟨1, [], none, none⟩ [itemA] rfl (Or.inl rfl)

/-- C8: for every interleaving of dequeue attempts by the scheduler
loop and the manual trigger (each `tryDequeue` being atomic), the items
handed out, in order, followed by the remaining queue reconstruct the
original queue exactly — so each item is removed by exactly one caller,
and when the queue contents are pairwise distinct no two dequeues
return the same item. -/
theorem dequeue_exclusive (sched : List Nat) (q : List PostItem) :
    ((runDequeues sched q).1.filterMap Prod.snd) ++ (runDequeues sched q).2 = q ∧
    (q.Nodup → ((runDequeues sched q).1.filterMap Prod.snd).Nodup) := by
  have main : ∀ (s : List Nat) (l : List PostItem),
      ((runDequeues s l).1.filterMap Prod.snd) ++ (runDequeues s l).2 = l := by
    intro s
    induction s with
    | nil =>
      intro l
      simp [runDequeues]
    | cons a s ih =>
      intro l
      cases l with
      | nil => simp [runDequeues, tryDequeue, ih]
      | cons p t => simp [runDequeues, tryDequeue, ih]
  refine ⟨main sched q, ?_⟩
  intro hnd
  have h := main sched q
  rw [← h] at hnd
  exact hnd.of_append_left

theorem dequeue_exclusive_witness :
    ((runDequeues [0, 1] [itemA, itemB]).1.filterMap Prod.snd) ++
        (runDequeues [0, 1] [itemA, itemB]).2 = [itemA, itemB] ∧
    ((runDequeues [0, 1] [itemA, itemB]).1.filterMap Prod.snd).Nodup :=
  ⟨(dequeue_exclusive [0, 1] [itemA, itemB]).1,
   (dequeue_exclusive [0, 1] [itemA, itemB]).2 (by decide)⟩

/-- C9: when the manual trigger dequeues an item and its delivery
fails, the endpoint still responds with the success status
"Post sent from queue", and the reported queue size equals the size
before the dequeue, because `send_post_to_channel` has already
re-enqueued the failed item at the tail before the size is read. -/
theorem manual_trigger_failure_hidden (pub : Publisher) (p : PostItem)
    (rest : List PostItem) (e : String) (h : publishPost pub p = .error e) :
    run_scheduler_endpoint pub (p :: rest) =
      (rest ++ [p], ⟨"Post sent from queue", some (rest.length + 1)⟩) ∧
    rest.length + 1 = (p :: rest).length := by
  refine ⟨?_, by simp⟩
  simp [run_scheduler_endpoint, send_post_to_channel, h]

theorem manual_trigger_failure_hidden_witness :
    run_scheduler_endpoint pubFail [itemA, itemB] =
      ([itemB, itemA], ⟨"Post sent from queue", some 2⟩) :=
  (manual_trigger_failure_hidden pubFail itemA [itemB] "network" rfl).1

/-- C10: an authorized message containing a photo is enqueued as the
photo variant regardless of any text it also carries (the photo branch
is tested first), with the caption equal to the message caption when
present and the empty string when absent — the caption field of the
queued item is a total `String`, never absent. -/
theorem photo_precedence_caption (adminId : Int) (msg : Message)
    (q : List PostItem) (fid : String)
    (hauth : msg.fromUserId = adminId) (hphoto : msg.photo.getLast? = some fid) :
    handle_new_post adminId msg q =
      (q ++ [.photo fid (msg.caption.getD "")], .added (q.length + 1)) := by
  simp [handle_new_post, hauth, hphoto, enqueue]

theorem photo_precedence_caption_witness :
    handle_new_post 1 ⟨1, ["f1", "f2"], none, some "hello"⟩ [] =
      ([.photo "f2" ""], .added 1) :=
  photo_precedence_caption 1 ⟨1, ["f1", "f2"], none, some "hello"⟩ [] "f2" rfl rfl
